import Mathlib

/-!
# Verification of the voice-patient-backend WebSocket bridge

Shallow embedding of the session-bridge and message-translator logic of
the repository (src/server.js, the Vertex AI variant, together with the
Gemini API variants in src/unnamed/part_000 .. part_004).  Each handler
registered on the two WebSocket connections is embedded as a pure Lean
function from its inputs (and the per-session readiness flag) to the list
of messages it sends on each side plus the updated session state.

Platform pieces are embedded at the granularity the handlers observe them:
JSON.parse is modelled by handing the handler the parse outcome
(ParseResult below), and Buffer base64 encoding is embedded as standard
RFC 4648 base64 over byte lists.
-/

namespace VoiceBridge

/-! ## Configuration constants (src/server.js lines 128-138)

MODEL_ID is the default of the VERTEX_MODEL environment variable. -/

def MODEL_ID : String := "gemini-2.0-flash-live-preview-04-09"

def INPUT_MIME : String := "audio/pcm;rate=16000"

def OUTPUT_EXPECTED_RATE : Nat := 24000

/-- The ws library constant WebSocket.OPEN (readyState values are
CONNECTING=0, OPEN=1, CLOSING=2, CLOSED=3). -/
def WS_OPEN : Nat := 1

/-! ## Base64 (the helper toBase64, src/server.js lines 141-143, and the
underlying Buffer.toString base64 codec, RFC 4648).

Bytes are Nat values below 256; six-bit digit values are Nat below 64. -/

/-- The 64-character base64 alphabet. -/
def b64Chars : List Char :=
  "ABCDEFGHIJKLMNOPQRSTUVWXYZabcdefghijklmnopqrstuvwxyz0123456789+/".toList

/-- Character for a six-bit digit value. -/
def b64Char (n : Nat) : Char := b64Chars.getD n 'A'

/-- Digit value of a base64 character, none for characters outside the
alphabet (the pad character yields none). -/
def b64Index (c : Char) : Option Nat :=
  let i := b64Chars.findIdx (fun d => d = c)
  if i < 64 then some i else none

/-- Byte list to six-bit digit values: each group of three bytes yields
four digits, a trailing group of one or two bytes yields two or three. -/
def encodeVals : List Nat → List Nat
  | [] => []
  | [a] => [a / 4, a % 4 * 16]
  | [a, b] => [a / 4, a % 4 * 16 + b / 16, b % 16 * 4]
  | a :: b :: c :: rest =>
      a / 4 :: (a % 4 * 16 + b / 16) :: (b % 16 * 4 + c / 64) :: c % 64 :: encodeVals rest

/-- Padding characters determined by the byte count, per RFC 4648. -/
def b64Pad (len : Nat) : List Char :=
  match len % 3 with
  | 1 => ['=', '=']
  | 2 => ['=']
  | _ => []

/-- The helper toBase64 (src/server.js 141-143): standard base64 encoding
as produced by Buffer.toString. -/
def toBase64 (bytes : List Nat) : String :=
  ⟨(encodeVals bytes).map b64Char ++ b64Pad bytes.length⟩

/-- Six-bit digit values back to bytes; a single leftover digit is
malformed. -/
def decodeVals : List Nat → Option (List Nat)
  | [] => some []
  | [d0, d1] => some [d0 * 4 + d1 / 16]
  | [d0, d1, d2] => some [d0 * 4 + d1 / 16, d1 % 16 * 16 + d2 / 4]
  | d0 :: d1 :: d2 :: d3 :: rest =>
      (decodeVals rest).map
        (fun t => (d0 * 4 + d1 / 16) :: (d1 % 16 * 16 + d2 / 4) :: (d2 % 4 * 64 + d3) :: t)
  | [_] => none

/-- Map each character to its digit value, failing on any character
outside the alphabet. -/
def mapB64Index : List Char → Option (List Nat)
  | [] => some []
  | c :: cs =>
      match b64Index c, mapB64Index cs with
      | some d, some ds => some (d :: ds)
      | _, _ => none

/-- Standard base64 decoding: strip padding, map digits, regroup. -/
def fromBase64 (s : String) : Option (List Nat) :=
  match mapB64Index (s.data.filter (fun c => c ≠ '=')) with
  | some ds => decodeVals ds
  | none => none

/-! ### Base64 round-trip lemmas -/

theorem b64Char_ne_pad : ∀ n < 64, b64Char n ≠ '=' := by decide

theorem b64Index_b64Char : ∀ n < 64, b64Index (b64Char n) = some n := by decide

theorem encodeVals_lt (l : List Nat) (h : ∀ b ∈ l, b < 256) :
    ∀ x ∈ encodeVals l, x < 64 := by
  induction l using encodeVals.induct with
  | case1 => simp [encodeVals]
  | case2 a =>
      have ha := h a (by simp)
      simp only [encodeVals, List.mem_cons, List.not_mem_nil, or_false]
      rintro x (rfl | rfl) <;> omega
  | case3 a b =>
      have ha := h a (by simp)
      have hb := h b (by simp)
      simp only [encodeVals, List.mem_cons, List.not_mem_nil, or_false]
      rintro x (rfl | rfl | rfl) <;> omega
  | case4 a b c rest ih =>
      have ha := h a (by simp)
      have hb := h b (by simp)
      have hc := h c (by simp)
      have ih2 := ih (fun x hx => h x (by simp [hx]))
      simp only [encodeVals, List.mem_cons]
      rintro x (rfl | rfl | rfl | rfl | hx)
      · omega
      · omega
      · omega
      · omega
      · exact ih2 x hx

theorem decodeVals_encodeVals (l : List Nat) (h : ∀ b ∈ l, b < 256) :
    decodeVals (encodeVals l) = some l := by
  induction l using encodeVals.induct with
  | case1 => simp [encodeVals, decodeVals]
  | case2 a =>
      have ha := h a (by simp)
      simp only [encodeVals, decodeVals, Option.some.injEq, List.cons.injEq, and_true]
      omega
  | case3 a b =>
      have ha := h a (by simp)
      have hb := h b (by simp)
      simp only [encodeVals, decodeVals, Option.some.injEq, List.cons.injEq, and_true]
      constructor <;> omega
  | case4 a b c rest ih =>
      have ha := h a (by simp)
      have hb := h b (by simp)
      have hc := h c (by simp)
      have ih2 := ih (fun x hx => h x (by simp [hx]))
      simp only [encodeVals, decodeVals, ih2, Option.map_some', Option.some.injEq,
        List.cons.injEq, and_true]
      omega

theorem mapB64Index_map_b64Char (ds : List Nat) (h : ∀ d ∈ ds, d < 64) :
    mapB64Index (ds.map b64Char) = some ds := by
  induction ds with
  | nil => simp [mapB64Index]
  | cons d ds ih =>
      have hd := h d (by simp)
      have ih2 := ih (fun x hx => h x (by simp [hx]))
      simp only [List.map_cons, mapB64Index, b64Index_b64Char d hd, ih2]

theorem filter_b64Pad (n : Nat) :
    (b64Pad n).filter (fun c => c ≠ '=') = [] := by
  unfold b64Pad
  split <;> decide

theorem filter_map_b64Char (ds : List Nat) (h : ∀ d ∈ ds, d < 64) :
    (ds.map b64Char).filter (fun c => c ≠ '=') = ds.map b64Char := by
  rw [List.filter_eq_self]
  intro c hc
  rcases List.mem_map.mp hc with ⟨d, hd, rfl⟩
  simpa using b64Char_ne_pad d (h d hd)

/-- Base64 round trip: decoding the encoding of a byte list recovers the
bytes exactly. -/
theorem fromBase64_toBase64 (bytes : List Nat) (h : ∀ b ∈ bytes, b < 256) :
    fromBase64 (toBase64 bytes) = some bytes := by
  have hlt := encodeVals_lt bytes h
  unfold fromBase64 toBase64
  simp only [List.filter_append, filter_b64Pad, filter_map_b64Char _ hlt,
    List.append_nil, mapB64Index_map_b64Char _ hlt]
  exact decodeVals_encodeVals bytes h

/-! ## Data model

The JSON shapes the handlers inspect.  Optional string fields are
Option String; JavaScript truthiness on strings (the empty string is
falsy, every other string truthy) is applied at each use site, exactly
where the source tests the field. -/

/-- JavaScript truthiness filter for an optional string field: a value
survives iff it is present and nonempty. -/
def truthyStr : Option String → Option String
  | some s => if s = "" then none else some s
  | none => none

/-- An inputTranscription / outputTranscription object. -/
structure Transcription where
  text : Option String
deriving DecidableEq

/-- An inlineData / inline_data object of a content part.  The mimeType
and mime_type fields are the two casings the upstream protocol may use. -/
structure InlineData where
  mimeType : Option String
  mime_type : Option String
  data : Option String
deriving DecidableEq

/-- One element of serverContent.modelTurn.parts. -/
structure Part where
  text : Option String
  inlineData : Option InlineData
  inline_data : Option InlineData
deriving DecidableEq

/-- serverContent.modelTurn. -/
structure ModelTurn where
  parts : Option (List Part)
deriving DecidableEq

/-- The serverContent object of an upstream message.  The interrupted and
turnComplete fields record JavaScript truthiness of those fields. -/
structure ServerContent where
  inputTranscription : Option Transcription
  outputTranscription : Option Transcription
  modelTurn : Option ModelTurn
  interrupted : Bool
  turnComplete : Bool
deriving DecidableEq

/-- A parsed upstream message.  setupComplete records truthiness of the
setupComplete field.  The error field is some s exactly when the message
carries a truthy error value, with s the JSON serialization of that value
(the handlers in src/unnamed/part_000 and part_002 send
JSON.stringify of the error; src/server.js never reads the field). -/
structure UpMsg where
  setupComplete : Bool
  error : Option String
  serverContent : Option ServerContent
deriving DecidableEq

/-- Outcome of safeJsonParse (src/server.js 144-146) on the upstream
payload string: failed keeps the raw string (the handler only uses the
raw string in that branch), ok carries the parsed message. -/
inductive ParseResult where
  | failed (raw : String)
  | ok (msg : UpMsg)
deriving DecidableEq

/-- A JSON message sent to the downstream (browser) client, tagged by its
type field (src/server.js clientWs.send call sites). -/
inductive DownEvent where
  | ready (model : String) (outputRate : Nat)
  | transcript (text : String)
  | aiTranscript (text : String)
  | aiText (text : String)
  | audio (mimeType : String) (data : String)
  | interrupted
  | turnComplete
  | error (message : String)
  | closed (message : String)
  | debug (raw : String)
deriving DecidableEq

/-- A JSON message sent to the upstream (Vertex/Gemini) connection by the
client-message handler (src/server.js 356-378). -/
inductive UpstreamMsg where
  | realtimeAudio (mimeType : String) (data : String)
  | realtimeText (text : String)
  | audioStreamEnd
deriving DecidableEq

/-- A parsed downstream control message.  type is some s iff the type
field is present with string value s; text is some s iff the text field
is present and is a string (the source tests typeof msg.text). -/
structure ClientMsg where
  type : Option String
  text : Option String
deriving DecidableEq

/-- A downstream message as the clientWs message handler sees it: a
binary frame carrying raw bytes, or a text frame given by its
safeJsonParse outcome (none when unparseable). -/
inductive ClientPayload where
  | binary (bytes : List Nat)
  | text (parsed : Option ClientMsg)
deriving DecidableEq

/-! ## Message translation, upstream to downstream
(src/server.js vertexWs message handler, lines 285-335) -/

/-- The slice(0, n) prefix of a string, modelled at character
granularity. -/
def strSlice (s : String) (n : Nat) : String := ⟨s.data.take n⟩

/-- The truthy text of an optional transcription object, mirroring the
optional-chaining test serverContent?.xTranscription?.text. -/
def transcriptText : Option Transcription → Option String
  | some tr => truthyStr tr.text
  | none => none

/-- part.inlineData or part.inline_data, first present object wins
(objects are always truthy in JavaScript). -/
def jsInline (p : Part) : Option InlineData :=
  p.inlineData.orElse (fun _ => p.inline_data)

/-- inline.mimeType or inline.mime_type or the fixed default, by string
truthiness (src/server.js line 326). -/
def resolveMimeType (inline : InlineData) : String :=
  ((truthyStr inline.mimeType).orElse
    (fun _ => truthyStr inline.mime_type)).getD
      ("audio/pcm;rate=" ++ toString OUTPUT_EXPECTED_RATE)

/-- Downstream events for one content part (src/server.js 317-330): an
ai_text event when part.text is truthy, then an audio event when the
inline media (either casing) has truthy data. -/
def partEvents (p : Part) : List DownEvent :=
  (match p.text with
   | some t => if t = "" then [] else [DownEvent.aiText t]
   | none => []) ++
  (match jsInline p with
   | some inline =>
       (match inline.data with
        | some d => if d = "" then [] else [DownEvent.audio (resolveMimeType inline) d]
        | none => [])
   | none => [])

/-- Downstream events produced from the serverContent object of a
non-setup upstream message (src/server.js 305-334): transcripts, then
the model-turn parts in order, then interruption and turn-completion
markers. -/
def serverContentEvents (sc : Option ServerContent) : List DownEvent :=
  match sc with
  | none => []
  | some sc =>
      (match transcriptText sc.inputTranscription with
       | some t => [DownEvent.transcript t]
       | none => []) ++
      (match transcriptText sc.outputTranscription with
       | some t => [DownEvent.aiTranscript t]
       | none => []) ++
      (match sc.modelTurn with
       | some mt =>
           (match mt.parts with
            | some ps => if ps.length ≠ 0 then (ps.map partEvents).flatten else []
            | none => [])
       | none => []) ++
      (if sc.interrupted then [DownEvent.interrupted] else []) ++
      (if sc.turnComplete then [DownEvent.turnComplete] else [])

/-- The vertexWs message handler of src/server.js (lines 285-335).
Input: the safeJsonParse outcome of the payload and the current
vertexReady flag.  Output: the events sent to the client, the new
vertexReady flag, and whether the handler closes the client connection
(this handler never does). -/
def vertexOnMessage (input : ParseResult) (vertexReady : Bool) :
    List DownEvent × Bool × Bool :=
  match input with
  | ParseResult.failed raw => ([DownEvent.debug (strSlice raw 500)], vertexReady, false)
  | ParseResult.ok msg =>
      if msg.setupComplete then
        ([DownEvent.ready MODEL_ID OUTPUT_EXPECTED_RATE], true, false)
      else
        (serverContentEvents msg.serverContent, vertexReady, false)

/-- The geminiWs message handler of src/unnamed/part_000 (lines 256-302,
same shape in part_002): identical to the Vertex handler except that a
truthy msg.error field is answered with a single downstream error event
carrying the stringified error, before the setupComplete test, and the
ready event carries the dynamically chosen model.  Events are delivered
through wsSendSafe, which writes only while the client socket is open. -/
def geminiOnMessage (modelToUse : String) (input : ParseResult) (geminiReady : Bool) :
    List DownEvent × Bool × Bool :=
  match input with
  | ParseResult.failed raw => ([DownEvent.debug (strSlice raw 500)], geminiReady, false)
  | ParseResult.ok msg =>
      match msg.error with
      | some e => ([DownEvent.error e], geminiReady, false)
      | none =>
          if msg.setupComplete then
            ([DownEvent.ready modelToUse OUTPUT_EXPECTED_RATE], true, false)
          else
            (serverContentEvents msg.serverContent, geminiReady, false)

/-! ## Upstream close handler (src/server.js 337-344) -/

/-- The message text of the downstream closed event. -/
def vertexCloseMessage (code : Nat) (reason : String) : String :=
  "Vertex WS closed. code=" ++ toString code ++ " reason=" ++ reason

/-- The vertexWs close handler: send the closed event downstream, then
close the client connection (the Bool records that close call). -/
def vertexOnClose (code : Nat) (reason : String) : List DownEvent × Bool :=
  ([DownEvent.closed (vertexCloseMessage code reason)], true)

/-! ## Message translation, downstream to upstream
(src/server.js clientWs message handler, lines 352-379) -/

/-- Upstream messages produced from a parsed downstream text frame:
the two independent if statements on msg.type (src/server.js 372-378). -/
def clientControlSends (m : ClientMsg) : List UpstreamMsg :=
  (match m.type, m.text with
   | some "text", some t => [UpstreamMsg.realtimeText t]
   | _, _ => []) ++
  (if m.type = some "stop_audio" then [UpstreamMsg.audioStreamEnd] else [])

/-- The clientWs message handler of src/server.js (lines 352-379).
Inputs: whether the vertexWs handle is non-null, its readyState, the
vertexReady flag, and the frame.  Output: the messages sent upstream and
the messages sent downstream.  Both guard returns fire before any send,
so a non-open upstream socket is never written to; the handler contains
no clientWs.send call, so the downstream list is always empty. -/
def clientOnMessage (hasVertexWs : Bool) (readyState : Nat) (vertexReady : Bool)
    (p : ClientPayload) : List UpstreamMsg × List DownEvent :=
  if hasVertexWs = false ∨ readyState ≠ WS_OPEN then ([], [])
  else if vertexReady = false then ([], [])
  else
    match p with
    | ClientPayload.binary bytes =>
        ([UpstreamMsg.realtimeAudio INPUT_MIME (toBase64 bytes)], [])
    | ClientPayload.text none => ([], [])
    | ClientPayload.text (some m) => (clientControlSends m, [])

/-! ## Session-level readiness evolution

The only mutable per-session state of src/server.js is the pair
(vertexWs, vertexReady) declared at lines 235-236.  vertexReady is
assigned exactly twice: false at declaration and true inside the
vertexWs message handler on setupComplete (line 296).  Every other
handler leaves it untouched, which the step function below records.
In particular there is no message buffer in the session state: a dropped
downstream message can never be replayed later. -/

/-- One callback invocation on either socket of a session. -/
inductive SessionEvent where
  | upMessage (input : ParseResult)
  | upOpen
  | upUnexpectedResponse (status : Nat) (body : String)
  | upClose (code : Nat) (reason : String)
  | upError (message : String)
  | clientMessage (hasVertexWs : Bool) (readyState : Nat) (p : ClientPayload)
  | clientClose
  | clientError
deriving DecidableEq

/-- The vertexReady flag after one handler invocation: only the upstream
message handler ever assigns it. -/
def stepReady (r : Bool) (e : SessionEvent) : Bool :=
  match e with
  | SessionEvent.upMessage input => (vertexOnMessage input r).2.1
  | _ => r

/-! ## String helpers for the claims -/

theorem string_data_append (a b : String) : (a ++ b).data = a.data ++ b.data := rfl

theorem strSlice_length_le (s : String) (n : Nat) : (strSlice s n).length ≤ n := by
  show (s.data.take n).length ≤ n
  simp [List.length_take]

theorem strSlice_append_drop (s : String) (n : Nat) :
    strSlice s n ++ ⟨s.data.drop n⟩ = s := by
  show (⟨s.data.take n ++ s.data.drop n⟩ : String) = s
  rw [List.take_append_drop]

/-! ## Claims -/

/-- C1: every downstream message received while vertexReady is still
false is dropped whole: the client-message handler (src/server.js
352-379) sends nothing upstream and nothing downstream, and the handler
invocation leaves the session state untouched — the state carries no
queue, so a dropped message can never be replayed once READY is
reached. -/
theorem pre_ready_messages_dropped (hasVertexWs : Bool) (readyState : Nat)
    (p : ClientPayload) :
    clientOnMessage hasVertexWs readyState false p = ([], []) ∧
    ∀ r, stepReady r (SessionEvent.clientMessage hasVertexWs readyState p) = r := by
  refine ⟨?_, fun r => rfl⟩
  unfold clientOnMessage
  split
  · rfl
  · simp

/-- C2: a binary downstream frame received in the READY state is
forwarded upstream as exactly one realtimeInput.audio envelope, with the
fixed 16 kHz PCM mime type and the base64 encoding of the payload as
data, and base64-decoding that data recovers the payload bytes
exactly. -/
theorem ready_binary_audio_forward (bytes : List Nat) (h : ∀ b ∈ bytes, b < 256) :
    clientOnMessage true WS_OPEN true (ClientPayload.binary bytes) =
      ([UpstreamMsg.realtimeAudio INPUT_MIME (toBase64 bytes)], []) ∧
    INPUT_MIME = "audio/pcm;rate=16000" ∧
    fromBase64 (toBase64 bytes) = some bytes := by
  refine ⟨?_, rfl, fromBase64_toBase64 bytes h⟩
  simp [clientOnMessage]

theorem ready_binary_audio_forward_witness :
    (∀ b ∈ [0, 127, 255], b < 256) ∧
    (clientOnMessage true WS_OPEN true (ClientPayload.binary [0, 127, 255]) =
      ([UpstreamMsg.realtimeAudio INPUT_MIME (toBase64 [0, 127, 255])], []) ∧
     INPUT_MIME = "audio/pcm;rate=16000" ∧
     fromBase64 (toBase64 [0, 127, 255]) = some [0, 127, 255]) :=
  ⟨by decide, ready_binary_audio_forward [0, 127, 255] (by decide)⟩

/-- C5: an upstream payload that fails to parse yields exactly one
downstream debug event carrying the slice(0, 500) prefix of the raw
payload, leaves the readiness flag unchanged and closes nothing; the
carried text is a prefix of the raw payload of length at most 500. -/
theorem unparseable_upstream_debug (raw : String) (r : Bool) :
    vertexOnMessage (ParseResult.failed raw) r =
      ([DownEvent.debug (strSlice raw 500)], r, false) ∧
    (strSlice raw 500).length ≤ 500 ∧
    ∃ rest, raw = strSlice raw 500 ++ rest :=
  ⟨rfl, strSlice_length_le raw 500, ⟨⟨raw.data.drop 500⟩, (strSlice_append_drop raw 500).symm⟩⟩

/-- C6: a non-binary downstream frame in the READY state that is
unparseable, or parses to an object matching neither the text shape nor
the stop_audio shape, produces no upstream message and no downstream
event of any kind. -/
theorem malformed_client_control_ignored (m : ClientMsg)
    (h1 : ¬(m.type = some "text" ∧ m.text.isSome))
    (h2 : m.type ≠ some "stop_audio") :
    clientOnMessage true WS_OPEN true (ClientPayload.text (some m)) = ([], []) ∧
    clientOnMessage true WS_OPEN true (ClientPayload.text none) = ([], []) := by
  have hc : clientControlSends m = [] := by
    unfold clientControlSends
    rw [List.append_eq_nil]
    constructor
    · split
      · rename_i heq1 heq2
        exact absurd ⟨heq1, by simp [heq2]⟩ h1
      · rfl
    · split
      · rename_i heq
        exact absurd heq h2
      · rfl
  constructor
  · simp [clientOnMessage, hc]
  · simp [clientOnMessage]

theorem malformed_client_control_ignored_witness :
    (¬((ClientMsg.mk none none).type = some "text" ∧ (ClientMsg.mk none none).text.isSome)) ∧
    ((ClientMsg.mk none none).type ≠ some "stop_audio") ∧
    (clientOnMessage true WS_OPEN true (ClientPayload.text (some (ClientMsg.mk none none))) =
        ([], []) ∧
     clientOnMessage true WS_OPEN true (ClientPayload.text none) = ([], [])) :=
  ⟨by decide, by decide,
    malformed_client_control_ignored (ClientMsg.mk none none) (by decide) (by decide)⟩

/-- C9: a downstream message that arrives while the upstream handle is
null or its readyState is not OPEN is silently dropped even when the
session has reached READY: the guard at src/server.js line 353 returns
before any send is attempted, so nothing is written to the non-open
socket and no downstream event is produced. -/
theorem non_open_upstream_dropped (hasVertexWs : Bool) (readyState : Nat)
    (vertexReady : Bool) (p : ClientPayload)
    (h : hasVertexWs = false ∨ readyState ≠ WS_OPEN) :
    clientOnMessage hasVertexWs readyState vertexReady p = ([], []) := by
  unfold clientOnMessage
  rw [if_pos h]

theorem non_open_upstream_dropped_witness :
    (true = false ∨ (2 : Nat) ≠ WS_OPEN) ∧
    clientOnMessage true 2 true (ClientPayload.binary [1, 2, 3]) = ([], []) :=
  ⟨Or.inr (by decide),
    non_open_upstream_dropped true 2 true (ClientPayload.binary [1, 2, 3])
      (Or.inr (by decide))⟩

/-- C3: an upstream content part whose inline media (accepted under
either field-name casing) carries a truthy data payload yields a
downstream audio event whose data is the upstream base64 string passed
through unchanged, and whose mimeType is the part's mime type when
present (either casing, in that order) and the fixed 24 kHz PCM type
when absent. -/
theorem inline_media_audio_event (msg : UpMsg) (sc : ServerContent)
    (mt : ModelTurn) (ps : List Part) (p : Part) (inline : InlineData)
    (d : String) (r : Bool)
    (hsetup : msg.setupComplete = false)
    (hsc : msg.serverContent = some sc)
    (hmt : sc.modelTurn = some mt)
    (hps : mt.parts = some ps)
    (hp : p ∈ ps)
    (hinl : p.inlineData = some inline ∨
      (p.inlineData = none ∧ p.inline_data = some inline))
    (hd : inline.data = some d) (hdne : d ≠ "") :
    DownEvent.audio (resolveMimeType inline) d ∈ (vertexOnMessage (ParseResult.ok msg) r).1 ∧
    (∀ m, inline.mimeType = some m → m ≠ "" → resolveMimeType inline = m) ∧
    (∀ m, inline.mimeType = none → inline.mime_type = some m → m ≠ "" →
      resolveMimeType inline = m) ∧
    (inline.mimeType = none → inline.mime_type = none →
      resolveMimeType inline = "audio/pcm;rate=24000") := by
  have hj : jsInline p = some inline := by
    rcases hinl with h | ⟨h1, h2⟩
    · simp [jsInline, h]
    · simp [jsInline, h1, h2]
  have hmem : DownEvent.audio (resolveMimeType inline) d ∈ partEvents p := by
    simp [partEvents, hj, hd, hdne]
  have hlen : ps.length ≠ 0 := by
    cases ps with
    | nil => simp at hp
    | cons _ _ => simp
  have hflat : DownEvent.audio (resolveMimeType inline) d ∈ (ps.map partEvents).flatten :=
    List.mem_flatten.mpr ⟨partEvents p, List.mem_map_of_mem _ hp, hmem⟩
  refine ⟨?_, ?_, ?_, ?_⟩
  · simp [vertexOnMessage, hsetup, serverContentEvents, hsc, hmt, hps, hlen, hflat]
  · intro m hm hmne
    simp [resolveMimeType, truthyStr, hm, hmne]
  · intro m hm1 hm2 hmne
    simp [resolveMimeType, truthyStr, hm1, hm2, hmne]
  · intro hm1 hm2
    simp [resolveMimeType, truthyStr, hm1, hm2]
    rfl

/-- Concrete fixture for the C3 witness (spec Scenario C). -/
def c3Inline : InlineData := InlineData.mk none none (some "QUJD")

/-- Concrete content part for the C3 witness, using the inline_data
casing. -/
def c3Part : Part := Part.mk none none (some c3Inline)

/-- Concrete upstream message for the C3 witness. -/
def c3Msg : UpMsg :=
  UpMsg.mk false none
    (some (ServerContent.mk none none (some (ModelTurn.mk (some [c3Part]))) false false))

theorem inline_media_audio_event_witness :
    (c3Msg.setupComplete = false ∧ c3Part ∈ [c3Part] ∧
     c3Inline.data = some "QUJD" ∧ "QUJD" ≠ "") ∧
    DownEvent.audio (resolveMimeType c3Inline) "QUJD" ∈
      (vertexOnMessage (ParseResult.ok c3Msg) true).1 :=
  ⟨⟨rfl, by simp, rfl, by decide⟩,
    (inline_media_audio_event c3Msg
      (ServerContent.mk none none (some (ModelTurn.mk (some [c3Part]))) false false)
      (ModelTurn.mk (some [c3Part])) [c3Part] c3Part c3Inline "QUJD" true
      rfl rfl rfl rfl (by simp) (Or.inr ⟨rfl, rfl⟩) rfl (by decide)).1⟩

/-- C4: a parsed upstream message carrying a truthy error field is
answered by the geminiWs message handler (src/unnamed/part_000 lines
265-268) with exactly one downstream error event carrying the
stringified error, and nothing else happens on that message: no other
event, the readiness flag is unchanged, and neither connection is
closed. -/
theorem inband_error_nonfatal (modelToUse : String) (msg : UpMsg) (e : String)
    (r : Bool) (h : msg.error = some e) :
    geminiOnMessage modelToUse (ParseResult.ok msg) r = ([DownEvent.error e], r, false) := by
  simp [geminiOnMessage, h]

theorem inband_error_nonfatal_witness :
    (UpMsg.mk false (some "upstream failure 500") none).error =
      some "upstream failure 500" ∧
    geminiOnMessage "models/gemini-2.0-flash-live-001"
        (ParseResult.ok (UpMsg.mk false (some "upstream failure 500") none)) true =
      ([DownEvent.error "upstream failure 500"], true, false) :=
  ⟨rfl,
    inband_error_nonfatal "models/gemini-2.0-flash-live-001"
      (UpMsg.mk false (some "upstream failure 500") none) "upstream failure 500" true rfl⟩

/-- C7: the upstream close handler (src/server.js 337-344) sends the
downstream peer a single closed event whose message contains both the
close code and the reason text — in particular, for code 1011 the
message contains the text 1011 — and then closes the downstream
connection. -/
theorem upstream_close_propagation (code : Nat) (reason : String) :
    vertexOnClose code reason =
      ([DownEvent.closed (vertexCloseMessage code reason)], true) ∧
    (∃ a b, (vertexCloseMessage code reason).data = a ++ (toString code).data ++ b) ∧
    (∃ a b, (vertexCloseMessage code reason).data = a ++ reason.data ++ b) ∧
    (∃ a b, (vertexCloseMessage 1011 reason).data = a ++ "1011".data ++ b) := by
  have h1011 : toString (1011 : Nat) = "1011" := rfl
  refine ⟨rfl,
    ⟨"Vertex WS closed. code=".data, (" reason=" ++ reason).data, ?_⟩,
    ⟨("Vertex WS closed. code=" ++ toString code ++ " reason=").data, [], ?_⟩,
    ⟨"Vertex WS closed. code=".data, (" reason=" ++ reason).data, ?_⟩⟩ <;>
  simp [vertexCloseMessage, string_data_append, h1011, List.append_assoc]

/-- C8: readiness is monotonic across a session's lifetime — over any
sequence of handler invocations, once the vertexReady flag is true no
handler ever resets it: only the upstream message handler assigns the
flag, and it only ever assigns true. -/
theorem readiness_monotonic (es : List SessionEvent) :
    es.foldl stepReady true = true := by
  induction es with
  | nil => rfl
  | cons e es ih =>
      have h1 : stepReady true e = true := by
        cases e with
        | upMessage input =>
            cases input with
            | failed raw => rfl
            | ok msg =>
                simp only [stepReady, vertexOnMessage]
                split <;> rfl
        | upOpen => rfl
        | upUnexpectedResponse status body => rfl
        | upClose code reason => rfl
        | upError message => rfl
        | clientMessage hasVertexWs readyState p => rfl
        | clientClose => rfl
        | clientError => rfl
      rw [List.foldl_cons, h1]
      exact ih

/-- Boolean recognizer for the downstream ai_text event. -/
def isAiTextEvent : DownEvent → Bool
  | DownEvent.aiText _ => true
  | _ => false

/-- C10: a content part whose text field is present but empty produces
no downstream ai_text event: the truthiness test at src/server.js line
318 discards empty text, so only the part's audio translation (if any)
remains. -/
theorem empty_text_part_silent (p : Part) (h : p.text = some "") :
    (partEvents p).filter isAiTextEvent = [] := by
  unfold partEvents
  rw [h]
  simp only [reduceIte, List.nil_append]
  rcases hji : jsInline p with _ | inline
  · simp [hji, isAiTextEvent]
  · rcases hd : inline.data with _ | d
    · simp [hji, hd, isAiTextEvent]
    · by_cases hde : d = "" <;> simp [hji, hd, hde, isAiTextEvent]

theorem empty_text_part_silent_witness :
    (Part.mk (some "") none (some (InlineData.mk none none (some "QQ==")))).text =
      some "" ∧
    (partEvents (Part.mk (some "") none (some (InlineData.mk none none (some "QQ=="))))).filter
      isAiTextEvent = [] :=
  ⟨rfl,
    empty_text_part_silent
      (Part.mk (some "") none (some (InlineData.mk none none (some "QQ==")))) rfl⟩

end VoiceBridge
